import Mathlib

/-!
Verification of the piranha algebraic kernel: Poisson-series terms
(coefficient × trigonometric key), the plain univariate monomial key, and
the key-convertibility relation.

The term-level operations are translated from
src/src/poisson_series_term.hpp.  The key types
(real_trigonometric_kronecker_monomial, univariate_monomial) and the
key_is_convertible trait are not among the staged sources (only their tests
and callers are), so they are modelled from the specification, as marked in
their doc comments.
-/

/-- The single error kind of this core (std::invalid_argument). -/
inductive PiranhaError
  | invalidArgument
  deriving DecidableEq

/-- Modelled from the spec: real_trigonometric_kronecker_monomial
(its header is not among the staged sources).  A trigonometric key holds a
vector of integer multipliers (the phase `Σ nᵢxᵢ`, one entry per symbol of
the reference SymbolSet) and a boolean flavour, true = cosine, false = sine. -/
structure rtk_monomial where
  m_vec : List Int
  m_flavour : Bool
  deriving DecidableEq

/-- Whether the first nonzero entry of a phase vector is negative (the
condition under which canonicalization negates the whole vector). -/
def first_nonzero_neg : List Int → Bool
  | [] => false
  | x :: xs => if x = 0 then first_nonzero_neg xs else decide (x < 0)

/-- Modelled from the spec: canonicalization forces the first nonzero
multiplier of a phase vector positive by negating the whole vector when
necessary; the boolean reports whether the sign was flipped. -/
def canonicalize (v : List Int) : List Int × Bool :=
  if first_nonzero_neg v then (v.map (fun x => -x), true) else (v, false)

/-- Modelled from the spec: key-level multiplication of two trigonometric
keys produces the sum-phase and difference-phase keys, each independently
canonicalized, with a per-output sign flag; by the product-to-sum
identities both outputs are cosine when the input flavours agree and sine
when they differ. -/
def rtk_monomial.multiply (k1 k2 : rtk_monomial) (args : List String) :
    (rtk_monomial × Bool) × (rtk_monomial × Bool) :=
  let vp := List.zipWith (fun a b => a + b) k1.m_vec k2.m_vec
  let vm := List.zipWith (fun a b => a - b) k1.m_vec k2.m_vec
  let f := k1.m_flavour == k2.m_flavour
  let cp := canonicalize vp
  let cm := canonicalize vm
  ((⟨cp.1, f⟩, cp.2), (⟨cm.1, f⟩, cm.2))

/-- Modelled from the spec: key-level differentiation (the source method is
named `partial`).  The multiplier is the coefficient of the symbol in the
phase (the additive identity when the symbol does not appear), negated when
the flavour is cosine; the derivative key keeps the phase and flips the
flavour. -/
def rtk_monomial.pderiv (k : rtk_monomial) (s : String) (args : List String) :
    Int × rtk_monomial :=
  let idx := args.indexOf s
  let n := k.m_vec.getD idx 0
  (if k.m_flavour then -n else n, ⟨k.m_vec, !k.m_flavour⟩)

/-- The operations the generic coefficient type `Cf` must provide
(multiplication, in-place division by 2, math::negate, math::is_zero,
math::partial by symbol name, multiplication by piranha::integer). -/
structure CfOps (C : Type) where
  mul : C → C → C
  div2 : C → C
  neg : C → C
  is_zero : C → Bool
  pdiff : C → String → C
  mulInt : C → Int → C

/-- The coefficient operations instantiated at the rationals (math::partial
of a constant rational is zero). -/
def ratOps : CfOps ℚ where
  mul := fun a b => a * b
  div2 := fun a => a / 2
  neg := fun a => -a
  is_zero := fun a => decide (a = 0)
  pdiff := fun _ _ => 0
  mulInt := fun a n => a * (n : ℚ)

/-- A Poisson series term: a coefficient paired with a trigonometric key
(src/src/poisson_series_term.hpp). -/
structure poisson_series_term (C : Type) where
  m_cf : C
  m_key : rtk_monomial
  deriving DecidableEq

/-- The base coefficient of a term product:
`Cf res_cf(this->m_cf * other.m_cf); res_cf /= 2;`
(poisson_series_term.hpp lines 120-121). -/
def poisson_series_term.mult_base {C : Type} (ops : CfOps C)
    (t other : poisson_series_term C) : C :=
  ops.div2 (ops.mul t.m_cf other.m_cf)

/-- The two output coefficients after the flavour-pair sign rule and before
any canonicalization-driven negation (poisson_series_term.hpp lines
122-135): both start at the base; sin·sin negates the plus (index 0),
cos·sin negates the minus (index 1), the other two cases change nothing. -/
def poisson_series_term.mult_flavour_cfs {C : Type} (ops : CfOps C)
    (t other : poisson_series_term C) : C × C :=
  let res_cf := poisson_series_term.mult_base ops t other
  let f1 := t.m_key.m_flavour
  let f2 := other.m_key.m_flavour
  if f1 && f2 then (res_cf, res_cf)
  else if !f1 && !f2 then (ops.neg res_cf, res_cf)
  else if !f1 && f2 then (res_cf, res_cf)
  else (res_cf, ops.neg res_cf)

/-- Term multiplication (poisson_series_term.hpp lines 113-146): the
flavour-adjusted coefficients, the key-level multiply, and then, per output
index, negation of the coefficient exactly when that output's sign flag is
set and its key's flavour is sine (lines 139-145).  The result is the pair
`(sum-term, difference-term)` (`multiplication_result_type` is a 2-tuple). -/
def poisson_series_term.multiply {C : Type} (ops : CfOps C)
    (t other : poisson_series_term C) (args : List String) :
    poisson_series_term C × poisson_series_term C :=
  let cs := poisson_series_term.mult_flavour_cfs ops t other
  let km := rtk_monomial.multiply t.m_key other.m_key args
  (⟨if km.1.2 && !km.1.1.m_flavour then ops.neg cs.1 else cs.1, km.1.1⟩,
   ⟨if km.2.2 && !km.2.1.m_flavour then ops.neg cs.2 else cs.2, km.2.1⟩)

/-- Term differentiation (poisson_series_term.hpp lines 167-180; the source
method is named `partial`).  Into an initially empty vector, push the term
`(cf_partial, this->m_key)` when `cf_partial` is not zero, then push the
term `(this->m_cf * key_partial.first, key_partial.second)` when
`key_partial.first` is not zero. -/
def poisson_series_term.pderiv {C : Type} (ops : CfOps C)
    (t : poisson_series_term C) (s : String) (args : List String) :
    List (poisson_series_term C) :=
  let retval : List (poisson_series_term C) := []
  let cf_d := ops.pdiff t.m_cf s
  let retval := if !(ops.is_zero cf_d) then retval ++ [⟨cf_d, t.m_key⟩] else retval
  let kd := rtk_monomial.pderiv t.m_key s args
  let retval :=
    if !(decide (kd.1 = 0)) then retval ++ [⟨ops.mulInt t.m_cf kd.1, kd.2⟩] else retval
  retval

/-- The caller-visible state of a `multiply` call: the receiver, the other
term and the SymbolSet are taken by const reference, and `retval` is the
out-parameter. -/
structure mult_call (C : Type) where
  m_self : poisson_series_term C
  m_other : poisson_series_term C
  m_args : List String
  m_retval : poisson_series_term C × poisson_series_term C

/-- The effect of a `multiply` call on the caller-visible state: the source
method is const and its only writes outside its locals are to `retval`'s
coefficient and key fields (poisson_series_term.hpp lines 114-145), so the
call replaces `retval` and touches nothing else. -/
def mult_call.run {C : Type} (ops : CfOps C) (st : mult_call C) : mult_call C :=
  { st with m_retval := poisson_series_term.multiply ops st.m_self st.m_other st.m_args }

/-- The caller-visible state of a differentiation call: the receiver, the
symbol and the SymbolSet, all taken const. -/
structure pderiv_call (C : Type) where
  m_self : poisson_series_term C
  m_symbol : String
  m_args : List String

/-- The effect of a differentiation call: the source method is const, takes
const references and returns a fresh vector (poisson_series_term.hpp lines
167-180), so the caller-visible state is returned unchanged next to the
result. -/
def pderiv_call.run {C : Type} (ops : CfOps C) (st : pderiv_call C) :
    pderiv_call C × List (poisson_series_term C) :=
  (st, poisson_series_term.pderiv ops st.m_self st.m_symbol st.m_args)

/-- Modelled from the spec: univariate_monomial (PlainMonomial; its header
is not among the staged sources, only src/tests/univariate_monomial.cpp).
It holds a single exponent of the ring type `T`. -/
structure univariate_monomial (T : Type) where
  m_value : T
  deriving DecidableEq

/-- Exponent getter. -/
def univariate_monomial.get_exponent {T : Type} (k : univariate_monomial T) : T :=
  k.m_value

/-- Exponent setter (returns the updated value). -/
def univariate_monomial.set_exponent {T : Type} (_ : univariate_monomial T) (e : T) :
    univariate_monomial T :=
  ⟨e⟩

/-- Modelled from the spec: the default constructor yields the identity
monomial, exponent zero. -/
def univariate_monomial.default_key (T : Type) [Zero T] : univariate_monomial T :=
  ⟨0⟩

/-- Modelled from the spec: construction against a SymbolSet fails with
InvalidArgument when the set has size greater than one, and otherwise
yields the zero exponent. -/
def univariate_monomial.from_args (T : Type) [Zero T] (args : List String) :
    Except PiranhaError (univariate_monomial T) :=
  if 1 < args.length then Except.error PiranhaError.invalidArgument
  else Except.ok ⟨0⟩

/-- Modelled from the spec: compatibility is true iff the SymbolSet has
size at most one and (size exactly one or the exponent is the additive
identity). -/
def univariate_monomial.is_compatible {T : Type} [Zero T] [DecidableEq T]
    (k : univariate_monomial T) (args : List String) : Bool :=
  decide (args.length ≤ 1) && (decide (args.length = 1) || decide (k.m_value = 0))

/-- Modelled from the spec: a correctly constructed PlainMonomial is never
ignorable. -/
def univariate_monomial.is_ignorable {T : Type} (_ : univariate_monomial T)
    (_ : List String) : Bool :=
  false

/-- Modelled from the spec: unitary iff every exponent relevant to the
SymbolSet (here the single exponent) is the additive identity. -/
def univariate_monomial.is_unitary {T : Type} [Zero T] [DecidableEq T]
    (k : univariate_monomial T) (_ : List String) : Bool :=
  decide (k.m_value = 0)

/-- Whether `new` equals `old` with exactly one additional element
inserted (the merge_args growth discipline). -/
def is_one_insertion : List String → List String → Bool
  | [], [_] => true
  | a :: as, b :: bs => (a == b && is_one_insertion as bs) || ((a :: as : List String) == bs)
  | _, _ => false

/-- Modelled from the spec: merge_args re-expresses the key over the new
SymbolSet; the new SymbolSet must equal the old one with exactly one
additional symbol inserted, else InvalidArgument; the new position receives
the additive identity, so the single exponent carries over. -/
def univariate_monomial.merge_args {T : Type} (k : univariate_monomial T)
    (old_args new_args : List String) : Except PiranhaError (univariate_monomial T) :=
  if is_one_insertion old_args new_args then Except.ok ⟨k.m_value⟩
  else Except.error PiranhaError.invalidArgument

/-- Modelled from the spec: PlainMonomial multiplication produces exactly
one result key, the exponent sum. -/
def univariate_monomial.multiply {T : Type} [Add T]
    (k other : univariate_monomial T) (_ : List String) : univariate_monomial T :=
  ⟨k.m_value + other.m_value⟩

/-- Modelled from the spec: the key hash is structural over the exponent
data; `hf` stands for std::hash of the exponent type. -/
def univariate_monomial.hash {T : Type} (hf : T → Nat) (k : univariate_monomial T) : Nat :=
  hf k.m_value

/-- The std::hash specialization for the key type forwards to the member
hash. -/
def um_std_hash {T : Type} (hf : T → Nat) (k : univariate_monomial T) : Nat :=
  univariate_monomial.hash hf k

/-- The key types declared in src/tests/key_is_convertible.cpp. -/
inductive mock_key_type
  | mock_key
  | mock_key_00
  deriving DecidableEq

/-- The converting constructors `(K2, K1)` — meaning K2 declares a
constructor `(const K1 &, const symbol_set &)` — present in
src/tests/key_is_convertible.cpp: only `mock_key_00(const mock_key &,
const symbol_set &)` (line 63). -/
def declared_conv_ctors : List (mock_key_type × mock_key_type) :=
  [(mock_key_type.mock_key_00, mock_key_type.mock_key)]

/-- Whether `k2` declares a converting constructor from `k1`. -/
def has_conv_ctor (k2 k1 : mock_key_type) : Bool :=
  decide ((k2, k1) ∈ declared_conv_ctors)

/-- Modelled from the spec: key_is_convertible (its header is not among
the staged sources) holds between K2 and K1 exactly when K2 exposes a
constructor taking `(const K1 &, const SymbolSet &)`. -/
def key_is_convertible (k2 k1 : mock_key_type) : Bool :=
  has_conv_ctor k2 k1

/-- Claim C1: trigonometric term multiplication yields two terms whose
coefficients, before any canonicalization-driven negation, both start at
base = (cf1 * cf2) / 2; the sum-term (index 0) coefficient is negated iff
both flavours are sine, the difference-term (index 1) coefficient is
negated iff the first flavour is cosine and the second sine, and in the
cos/cos and sin/cos cases neither changes.  Concretely, with cf1 = 3,
cf2 = 5 and both flavours cosine the two coefficients are 7.5 and 7.5;
with both flavours sine they are -7.5 and 7.5. -/
theorem c1_trig_multiply_flavour_rule :
    (∀ t1 t2 : poisson_series_term ℚ,
      poisson_series_term.mult_flavour_cfs ratOps t1 t2 =
        ((if t1.m_key.m_flavour = false ∧ t2.m_key.m_flavour = false
            then -(t1.m_cf * t2.m_cf / 2) else t1.m_cf * t2.m_cf / 2),
         (if t1.m_key.m_flavour = true ∧ t2.m_key.m_flavour = false
            then -(t1.m_cf * t2.m_cf / 2) else t1.m_cf * t2.m_cf / 2)))
    ∧ poisson_series_term.multiply ratOps ⟨3, ⟨[2], true⟩⟩ ⟨5, ⟨[1], true⟩⟩ ["x"] =
        (⟨15 / 2, ⟨[3], true⟩⟩, ⟨15 / 2, ⟨[1], true⟩⟩)
    ∧ poisson_series_term.mult_flavour_cfs ratOps ⟨3, ⟨[2], false⟩⟩ ⟨5, ⟨[1], false⟩⟩ =
        (-(15 / 2), 15 / 2)
    ∧ poisson_series_term.multiply ratOps ⟨3, ⟨[2], false⟩⟩ ⟨5, ⟨[1], false⟩⟩ ["x"] =
        (⟨-(15 / 2), ⟨[3], true⟩⟩, ⟨15 / 2, ⟨[1], true⟩⟩) := by
  refine ⟨?_, ?_, ?_, ?_⟩
  · intro t1 t2
    cases h1 : t1.m_key.m_flavour <;> cases h2 : t2.m_key.m_flavour <;>
      simp [poisson_series_term.mult_flavour_cfs, poisson_series_term.mult_base,
        ratOps, h1, h2]
  · norm_num [poisson_series_term.multiply, poisson_series_term.mult_flavour_cfs,
      poisson_series_term.mult_base, rtk_monomial.multiply, canonicalize,
      first_nonzero_neg, ratOps]
  · norm_num [poisson_series_term.mult_flavour_cfs, poisson_series_term.mult_base, ratOps]
  · norm_num [poisson_series_term.multiply, poisson_series_term.mult_flavour_cfs,
      poisson_series_term.mult_base, rtk_monomial.multiply, canonicalize,
      first_nonzero_neg, ratOps]

/-- Claim C2: after the key-level multiply reports a per-output sign flag,
an output term's coefficient is negated (relative to its flavour-adjusted,
un-canonicalized value) exactly when its sign flag is set and that output
key's flavour is sine; a cosine output is left unchanged even when the
flag is set, and a sine output with the flag set is negated exactly once.
The output keys are exactly those the key-level multiply produced. -/
theorem c2_sign_flag_negation {C : Type} (ops : CfOps C)
    (t1 t2 : poisson_series_term C) (args : List String) :
    ((poisson_series_term.multiply ops t1 t2 args).1.m_cf =
      (if (rtk_monomial.multiply t1.m_key t2.m_key args).1.2 = true ∧
          (rtk_monomial.multiply t1.m_key t2.m_key args).1.1.m_flavour = false
        then ops.neg (poisson_series_term.mult_flavour_cfs ops t1 t2).1
        else (poisson_series_term.mult_flavour_cfs ops t1 t2).1))
    ∧ ((poisson_series_term.multiply ops t1 t2 args).2.m_cf =
      (if (rtk_monomial.multiply t1.m_key t2.m_key args).2.2 = true ∧
          (rtk_monomial.multiply t1.m_key t2.m_key args).2.1.m_flavour = false
        then ops.neg (poisson_series_term.mult_flavour_cfs ops t1 t2).2
        else (poisson_series_term.mult_flavour_cfs ops t1 t2).2))
    ∧ ((rtk_monomial.multiply t1.m_key t2.m_key args).1.1.m_flavour = true →
        (poisson_series_term.multiply ops t1 t2 args).1.m_cf =
          (poisson_series_term.mult_flavour_cfs ops t1 t2).1)
    ∧ ((rtk_monomial.multiply t1.m_key t2.m_key args).2.1.m_flavour = true →
        (poisson_series_term.multiply ops t1 t2 args).2.m_cf =
          (poisson_series_term.mult_flavour_cfs ops t1 t2).2)
    ∧ ((poisson_series_term.multiply ops t1 t2 args).1.m_key =
        (rtk_monomial.multiply t1.m_key t2.m_key args).1.1)
    ∧ ((poisson_series_term.multiply ops t1 t2 args).2.m_key =
        (rtk_monomial.multiply t1.m_key t2.m_key args).2.1) := by
  simp only [poisson_series_term.multiply]
  cases hs0 : (rtk_monomial.multiply t1.m_key t2.m_key args).1.2 <;>
    cases hs1 : (rtk_monomial.multiply t1.m_key t2.m_key args).2.2 <;>
    cases hf0 : (rtk_monomial.multiply t1.m_key t2.m_key args).1.1.m_flavour <;>
    cases hf1 : (rtk_monomial.multiply t1.m_key t2.m_key args).2.1.m_flavour <;>
    simp [hs0, hs1, hf0, hf1]

/-- Claim C3: term differentiation returns the coefficient-rule term
`(cf_d, key)` when the coefficient derivative cf_d is nonzero, followed by
the key-rule term `(cf * mult, key_d)` when the key-level multiplier is
nonzero, in that order; the result has at most two terms and is empty when
both are the additive identity. -/
theorem c3_pderiv_structure {C : Type} (ops : CfOps C)
    (t : poisson_series_term C) (s : String) (args : List String) :
    (poisson_series_term.pderiv ops t s args =
      (if ops.is_zero (ops.pdiff t.m_cf s) then []
       else [⟨ops.pdiff t.m_cf s, t.m_key⟩]) ++
      (if (rtk_monomial.pderiv t.m_key s args).1 = 0 then []
       else [⟨ops.mulInt t.m_cf (rtk_monomial.pderiv t.m_key s args).1,
              (rtk_monomial.pderiv t.m_key s args).2⟩]))
    ∧ (poisson_series_term.pderiv ops t s args).length ≤ 2
    ∧ ((ops.is_zero (ops.pdiff t.m_cf s) = true ∧
        (rtk_monomial.pderiv t.m_key s args).1 = 0) →
        poisson_series_term.pderiv ops t s args = []) := by
  simp only [poisson_series_term.pderiv]
  cases hz : ops.is_zero (ops.pdiff t.m_cf s) <;>
    rcases hk : decide ((rtk_monomial.pderiv t.m_key s args).1 = 0) with _ | _ <;>
    simp_all

/-- Claim C4: PlainMonomial compatibility holds iff the SymbolSet has size
at most one and (size exactly one or the exponent is the additive
identity); a zero-exponent key is compatible with sizes 0 and 1, a
nonzero-exponent key is incompatible with size 0, compatible with size 1
and incompatible with every size at least 2. -/
theorem c4_is_compatible_boundary (T : Type) [Zero T] [DecidableEq T] :
    (∀ (k : univariate_monomial T) (S : List String),
      k.is_compatible S = true ↔ S.length ≤ 1 ∧ (S.length = 1 ∨ k.m_value = 0))
    ∧ (∀ k : univariate_monomial T, k.m_value = 0 →
        k.is_compatible [] = true ∧ ∀ a, k.is_compatible [a] = true)
    ∧ (∀ k : univariate_monomial T, k.m_value ≠ 0 →
        k.is_compatible [] = false ∧ (∀ a, k.is_compatible [a] = true)
        ∧ ∀ S : List String, 2 ≤ S.length → k.is_compatible S = false) := by
  refine ⟨?_, ?_, ?_⟩
  · intro k S
    simp [univariate_monomial.is_compatible]
  · intro k h
    constructor
    · simp [univariate_monomial.is_compatible, h]
    · intro a
      simp [univariate_monomial.is_compatible]
  · intro k h
    refine ⟨?_, ?_, ?_⟩
    · simp [univariate_monomial.is_compatible, h]
    · intro a
      simp [univariate_monomial.is_compatible]
    · intro S hS
      simp [univariate_monomial.is_compatible]
      omega

/-- Claim C4 witness: the characterization evaluated at a concrete key and
SymbolSet over the integers. -/
theorem c4_is_compatible_boundary_witness :
    ((⟨1⟩ : univariate_monomial Int).is_compatible ["x"] = true ↔
      ([("x" : String)].length ≤ 1 ∧
        ([("x" : String)].length = 1 ∨ (1 : Int) = 0)))
    ∧ ((⟨1⟩ : univariate_monomial Int).is_compatible ["x", "y"] = false) := by
  refine ⟨(c4_is_compatible_boundary Int).1 ⟨1⟩ ["x"], ?_⟩
  exact ((c4_is_compatible_boundary Int).2.2 ⟨1⟩ (by decide)).2.2 ["x", "y"] (by decide)

/-- Claim C5: among the key operations only construction against a
SymbolSet and merge_args can fail, and only with InvalidArgument for a
structural size mismatch: construction against a SymbolSet of size
greater than one fails, merge_args fails whenever the new SymbolSet is not
the old one with exactly one symbol inserted (in particular
merge_args([], [a, b])), and merge_args([], [a]) on an identity key yields
the identity key over [a] with the new position holding the additive
identity. -/
theorem c5_error_surface (T : Type) [Zero T] :
    (∀ args : List String, 1 < args.length →
      univariate_monomial.from_args T args = Except.error PiranhaError.invalidArgument)
    ∧ (∀ args : List String, args.length ≤ 1 →
      univariate_monomial.from_args T args = Except.ok ⟨0⟩)
    ∧ (∀ (k : univariate_monomial T) (old_args new_args : List String),
        is_one_insertion old_args new_args = false →
          k.merge_args old_args new_args = Except.error PiranhaError.invalidArgument)
    ∧ (univariate_monomial.from_args T ["x", "y"] =
        Except.error PiranhaError.invalidArgument)
    ∧ ((univariate_monomial.default_key T).merge_args [] ["a"] = Except.ok ⟨0⟩)
    ∧ (∀ k : univariate_monomial T,
        k.merge_args [] ["a", "b"] = Except.error PiranhaError.invalidArgument)
    ∧ (∀ e : PiranhaError, e = PiranhaError.invalidArgument) := by
  refine ⟨?_, ?_, ?_, ?_, ?_, ?_, ?_⟩
  · intro args h
    simp [univariate_monomial.from_args, h]
  · intro args h
    simp [univariate_monomial.from_args, Nat.not_lt.mpr h]
  · intro k old_args new_args h
    simp [univariate_monomial.merge_args, h]
  · simp [univariate_monomial.from_args]
  · simp [univariate_monomial.merge_args, univariate_monomial.default_key,
      is_one_insertion]
  · intro k
    simp [univariate_monomial.merge_args, is_one_insertion]
  · intro e
    cases e
    rfl

/-- Claim C5 witness: the general failure conditions evaluated at concrete
inputs over the integers. -/
theorem c5_error_surface_witness :
    (univariate_monomial.from_args Int ["x", "y", "z"] =
      Except.error PiranhaError.invalidArgument)
    ∧ (univariate_monomial.from_args Int ["x"] = Except.ok ⟨0⟩)
    ∧ ((⟨7⟩ : univariate_monomial Int).merge_args ["a"] ["a"] =
        Except.error PiranhaError.invalidArgument) := by
  refine ⟨(c5_error_surface Int).1 ["x", "y", "z"] (by decide), ?_, ?_⟩
  · exact (c5_error_surface Int).2.1 ["x"] (by decide)
  · exact (c5_error_surface Int).2.2.1 ⟨7⟩ ["a"] ["a"] (by decide)

/-- Claim C6: PlainMonomial multiplication produces exactly one result
key, the exponent sum: exponent 1 times exponent 2 over a one-symbol
SymbolSet yields exponent 3, and two identity keys over the empty
SymbolSet yield an identity key. -/
theorem c6_multiply_exponent_sum (T : Type) [Add T] :
    (∀ (k1 k2 : univariate_monomial T) (args : List String),
      k1.multiply k2 args = ⟨k1.m_value + k2.m_value⟩)
    ∧ ((⟨1⟩ : univariate_monomial Int).multiply ⟨2⟩ ["a"] = ⟨3⟩)
    ∧ ((univariate_monomial.default_key Int).multiply
        (univariate_monomial.default_key Int) [] =
        univariate_monomial.default_key Int) := by
  refine ⟨fun k1 k2 args => rfl, ?_, ?_⟩
  · simp [univariate_monomial.multiply]
  · simp [univariate_monomial.multiply, univariate_monomial.default_key]

/-- Claim C7: a default-constructed key is the multiplicative identity: it
is compatible with the empty SymbolSet, is not ignorable, and is unitary
with respect to every SymbolSet it is compatible with; is_unitary holds
iff the exponent is the additive identity, so setting a nonzero exponent
falsifies it and resetting the exponent to zero restores it. -/
theorem c7_default_key_unitary (T : Type) [Zero T] [DecidableEq T] :
    ((univariate_monomial.default_key T).is_compatible [] = true)
    ∧ (∀ S : List String, (univariate_monomial.default_key T).is_ignorable S = false)
    ∧ (∀ S : List String, (univariate_monomial.default_key T).is_compatible S = true →
        (univariate_monomial.default_key T).is_unitary S = true)
    ∧ (∀ (k : univariate_monomial T) (S : List String),
        k.is_unitary S = true ↔ k.m_value = 0)
    ∧ (∀ (k : univariate_monomial T) (S : List String) (e : T), e ≠ 0 →
        (k.set_exponent e).is_unitary S = false)
    ∧ (∀ (k : univariate_monomial T) (S : List String),
        (k.set_exponent 0).is_unitary S = true) := by
  refine ⟨?_, fun S => rfl, ?_, ?_, ?_, ?_⟩
  · simp [univariate_monomial.is_compatible, univariate_monomial.default_key]
  · intro S _
    simp [univariate_monomial.is_unitary, univariate_monomial.default_key]
  · intro k S
    simp [univariate_monomial.is_unitary]
  · intro k S e he
    simp [univariate_monomial.is_unitary, univariate_monomial.set_exponent, he]
  · intro k S
    simp [univariate_monomial.is_unitary, univariate_monomial.set_exponent]

/-- Claim C7 witness: the unitarity round-trip evaluated at a concrete key
over the integers. -/
theorem c7_default_key_unitary_witness :
    ((univariate_monomial.default_key Int).is_unitary ["x"] = true)
    ∧ (((⟨0⟩ : univariate_monomial Int).set_exponent 1).is_unitary ["x"] = false)
    ∧ ((((⟨0⟩ : univariate_monomial Int).set_exponent 1).set_exponent 0).is_unitary
        ["x"] = true) := by
  refine ⟨?_, ?_, ?_⟩
  · exact (c7_default_key_unitary Int).2.2.1 ["x"]
      ((c7_default_key_unitary Int).1)
  · exact (c7_default_key_unitary Int).2.2.2.2.1 ⟨0⟩ ["x"] 1 (by decide)
  · exact (c7_default_key_unitary Int).2.2.2.2.2 ((⟨0⟩ : univariate_monomial Int).set_exponent 1) ["x"]

/-- Claim C9: key_is_convertible holds between K2 and K1 exactly when K2
declares a constructor from (const K1 &, const SymbolSet &): it holds for
(mock_key_00, mock_key) and fails reflexively for both mock key types, so
convertibility is not reflexive. -/
theorem c9_key_is_convertible :
    (key_is_convertible mock_key_type.mock_key_00 mock_key_type.mock_key = true)
    ∧ (key_is_convertible mock_key_type.mock_key mock_key_type.mock_key = false)
    ∧ (key_is_convertible mock_key_type.mock_key_00 mock_key_type.mock_key_00 = false)
    ∧ (key_is_convertible mock_key_type.mock_key mock_key_type.mock_key_00 = false)
    ∧ (∀ k2 k1, key_is_convertible k2 k1 = true ↔ has_conv_ctor k2 k1 = true)
    ∧ ¬(∀ k : mock_key_type, key_is_convertible k k = true) := by
  refine ⟨by decide, by decide, by decide, by decide, fun k2 k1 => Iff.rfl, ?_⟩
  intro h
  exact absurd (h mock_key_type.mock_key) (by decide)

/-- Claim C10: a default-constructed PlainMonomial equals the monomial
with explicit exponent 0 and differs from the one with exponent 1 (for
both exponent types the tests instantiate, Nat for unsigned and Int for
integer); the hash of the identity key is the value-initialized
std::size_t, that is 0, and the member hash agrees with the std::hash
specialization on every key. -/
theorem c10_eq_hash :
    (∀ (T : Type) [Zero T], univariate_monomial.default_key T =
      (⟨0⟩ : univariate_monomial T))
    ∧ (univariate_monomial.default_key Int ≠ (⟨1⟩ : univariate_monomial Int))
    ∧ (univariate_monomial.default_key Nat ≠ (⟨1⟩ : univariate_monomial Nat))
    ∧ ((univariate_monomial.default_key Int).hash Int.natAbs = 0)
    ∧ ((univariate_monomial.default_key Nat).hash id = 0)
    ∧ (∀ (hf : Int → Nat), hf 0 = 0 →
        (univariate_monomial.default_key Int).hash hf = 0)
    ∧ (∀ (T : Type) (hf : T → Nat) (k : univariate_monomial T),
        univariate_monomial.hash hf k = um_std_hash hf k) := by
  refine ⟨fun T _ => rfl, by decide, by decide, by decide, by decide, ?_, ?_⟩
  · intro hf h
    simp [univariate_monomial.hash, univariate_monomial.default_key, h]
  · intro T hf k
    rfl

/-- Claim C10 witness: the conditional hash fact evaluated at the absolute
value hash on the integers. -/
theorem c10_eq_hash_witness :
    (univariate_monomial.default_key Int).hash Int.natAbs = 0 := by
  exact c10_eq_hash.2.2.2.2.2.1 Int.natAbs rfl

/-- Claim C8: term multiplication and differentiation never mutate either
operand term or the supplied SymbolSet — the calls only replace the
out-parameter (multiplication) or return a fresh vector (differentiation)
— and each is a pure function of its operands: the produced result does
not depend on any prior out-parameter contents. -/
theorem c8_no_mutation {C : Type} (ops : CfOps C) (st : mult_call C)
    (stp : pderiv_call C) :
    ((mult_call.run ops st).m_self = st.m_self
     ∧ (mult_call.run ops st).m_other = st.m_other
     ∧ (mult_call.run ops st).m_args = st.m_args)
    ∧ (∀ (t1 t2 : poisson_series_term C) (a : List String)
        (r1 r2 : poisson_series_term C × poisson_series_term C),
        (mult_call.run ops ⟨t1, t2, a, r1⟩).m_retval =
          (mult_call.run ops ⟨t1, t2, a, r2⟩).m_retval)
    ∧ ((pderiv_call.run ops stp).1 = stp)
    ∧ ((pderiv_call.run ops stp).2 =
        poisson_series_term.pderiv ops stp.m_self stp.m_symbol stp.m_args) :=
  ⟨⟨rfl, rfl, rfl⟩, fun _ _ _ _ _ => rfl, rfl, rfl⟩
